import Mathlib

/-!
Shallow embedding of the financial core of the App_finance repository
(src/finance.py and src/location.py) over the rationals, together with
theorems settling the frozen claims about it.

Python floats are modelled by `ℚ`; Python `round(x, 2)` and `round(x, 1)`
are modelled by rounding to the nearest multiple of 1/100 (resp. 1/10),
halves away from the floor direction (`round` of Mathlib).
-/

namespace AppFinance

/-- Model of Python `round(x, 2)`: round to the nearest cent. -/
def round2 (x : ℚ) : ℚ := (round (x * 100) : ℤ) / 100

/-- Model of Python `round(x, 1)`: round to the nearest tenth. -/
def round1 (x : ℚ) : ℚ := (round (x * 10) : ℤ) / 10

/-- Model of Python `round(x, 3)`: round to the nearest thousandth. -/
def round3 (x : ℚ) : ℚ := (round (x * 1000) : ℤ) / 1000

/-- A rational that is a whole number of cents. -/
def IsCent (q : ℚ) : Prop := ∃ k : ℤ, q = (k : ℚ) / 100


/-! ### Mutation tax (`calculer_droits_mutation`, src/finance.py lines 23-67)

A bracket bound of `float("inf")` in the Python tables is modelled by
`none : Option ℚ`. -/

/-- One bracket of a tax schedule: upper bound (`none` = infinity) and
marginal rate. -/
structure Tranche where
  seuil : Option ℚ
  taux : ℚ
deriving DecidableEq

/-- Model of `min(prix, seuil)` with an infinite bound giving back `prix`. -/
def minSeuil (prix : ℚ) : Option ℚ → ℚ
  | none => prix
  | some s => min prix s

/-- The loop break test `prix <= seuil_precedent` (true when the previous
bound is infinite). -/
def seuilAtteint (prix : ℚ) : Option ℚ → Prop
  | none => True
  | some s => prix ≤ s

instance seuilAtteint.dec (prix : ℚ) : (o : Option ℚ) → Decidable (seuilAtteint prix o)
  | none => .isTrue trivial
  | some s => inferInstanceAs (Decidable (prix ≤ s))

/-- The accumulation loop of `calculer_droits_mutation`: walks the brackets,
stopping as soon as the price no longer exceeds the previous bound.  The
`Option.getD 0` is only evaluated when the previous bound is finite, because
an infinite previous bound makes the break test true. -/
def droitsBoucle (prix : ℚ) : List Tranche → Option ℚ → ℚ → ℚ
  | [], _, taxe => taxe
  | t :: rest, seuil_precedent, taxe =>
    if seuilAtteint prix seuil_precedent then taxe
    else
      droitsBoucle prix rest t.seuil
        (taxe + (minSeuil prix t.seuil - seuil_precedent.getD 0) * t.taux)

/-- Model of `TRANCHES_MUTATION_QC_2026` (general Québec schedule). -/
def TRANCHES_MUTATION_QC_2026 : List Tranche :=
  [⟨some 62900, 0.005⟩, ⟨some 315000, 0.01⟩, ⟨none, 0.015⟩]

/-- Model of `TRANCHES_MUTATION_MTL_2026` (Montréal schedule). -/
def TRANCHES_MUTATION_MTL_2026 : List Tranche :=
  [⟨some 62900, 0.005⟩, ⟨some 315000, 0.01⟩, ⟨some 500000, 0.015⟩,
   ⟨some 1000000, 0.02⟩, ⟨some 2000000, 0.025⟩, ⟨some 3113000, 0.035⟩,
   ⟨none, 0.04⟩]

/-- Model of `TRANCHES_MUTATION_QCV_2026` (Québec City schedule). -/
def TRANCHES_MUTATION_QCV_2026 : List Tranche :=
  [⟨some 62900, 0.005⟩, ⟨some 315000, 0.01⟩, ⟨some 500000, 0.015⟩,
   ⟨some 750000, 0.025⟩, ⟨none, 0.03⟩]

/-- The `BAREMES` catalog, keyed by jurisdiction name. -/
def BAREMES : List (String × List Tranche) :=
  [("Québec (général)", TRANCHES_MUTATION_QC_2026),
   ("Montréal", TRANCHES_MUTATION_MTL_2026),
   ("Ville de Québec", TRANCHES_MUTATION_QCV_2026)]

/-- Model of `calculer_droits_mutation(prix, bareme)`: unknown keys silently fall
back to the general Québec schedule (`BAREMES.get(bareme, ...)`). -/
def calculer_droits_mutation (prix : ℚ) (bareme : String) : ℚ :=
  round2 (droitsBoucle prix
    ((BAREMES.lookup bareme).getD TRANCHES_MUTATION_QC_2026) (some 0) 0)

/-! #### Well-formedness of a schedule: bounds ascend from the running
previous bound, rates are non-negative.  The three catalog schedules
satisfy both, by computation. -/

/-- Previous bound does not exceed the next bound (an infinite previous
bound imposes nothing: the loop has already stopped there). -/
def precLE : Option ℚ → Option ℚ → Prop
  | _, none => True
  | none, some _ => True
  | some a, some b => a ≤ b

instance precLE.dec : (o1 o2 : Option ℚ) → Decidable (precLE o1 o2)
  | none, none => .isTrue trivial
  | none, some _ => .isTrue trivial
  | some _, none => .isTrue trivial
  | some a, some b => inferInstanceAs (Decidable (a ≤ b))

/-- Bounds of the schedule ascend, starting from the given previous bound. -/
def chaine : Option ℚ → List Tranche → Prop
  | _, [] => True
  | prec, t :: rest => precLE prec t.seuil ∧ chaine t.seuil rest

instance chaine.dec : (prec : Option ℚ) → (l : List Tranche) → Decidable (chaine prec l)
  | _, [] => .isTrue trivial
  | prec, t :: rest =>
    have : Decidable (chaine t.seuil rest) := chaine.dec t.seuil rest
    inferInstanceAs (Decidable (precLE prec t.seuil ∧ chaine t.seuil rest))

/-- All marginal rates of the schedule are non-negative. -/
def tauxNonneg (l : List Tranche) : Prop := ∀ t ∈ l, 0 ≤ t.taux


/-! ### Mortgage payment (`calculer_paiement_hypothecaire`, lines 107-120) -/

/-- Model of `calculer_paiement_hypothecaire(montant, taux_annuel, amortissement_annees)`
with its degenerate-input guard; the Python default `amortissement_annees = 25`
is passed explicitly at call sites. -/
def calculer_paiement_hypothecaire (montant taux_annuel : ℚ)
    (amortissement_annees : ℕ) : ℚ :=
  if montant ≤ 0 ∨ taux_annuel ≤ 0 then 0
  else
    let taux_mensuel := taux_annuel / 100 / 12
    let n := amortissement_annees * 12
    round2 (montant * (taux_mensuel * (1 + taux_mensuel) ^ n) /
      ((1 + taux_mensuel) ^ n - 1))


/-! ### Amortization table (`tableau_amortissement`, lines 123-152) -/

/-- One row of the annual amortization table. -/
structure AmorRow where
  annee : ℕ
  paiement_annuel : ℚ
  interets : ℚ
  capital_rembourse : ℚ
  solde_restant : ℚ
deriving DecidableEq

/-- The inner 12-iteration month loop: given remaining iterations, monthly
rate, monthly payment, accumulated interest, accumulated principal and
balance, returns final (interest, principal, balance). -/
def moisBoucle (taux_mensuel paiement : ℚ) :
    ℕ → ℚ → ℚ → ℚ → ℚ × ℚ × ℚ
  | 0, interet_annuel, capital_annuel, solde => (interet_annuel, capital_annuel, solde)
  | m + 1, interet_annuel, capital_annuel, solde =>
    let interet := solde * taux_mensuel
    let capital := paiement - interet
    moisBoucle taux_mensuel paiement m
      (interet_annuel + interet) (capital_annuel + capital) (solde - capital)

/-- The outer year loop of `tableau_amortissement`: `annee` is the 1-based
year counter, the second argument the number of years still to produce. -/
def anneesBoucle (taux_mensuel paiement_mensuel : ℚ) :
    ℕ → ℕ → ℚ → List AmorRow
  | _, 0, _ => []
  | annee, k + 1, solde =>
    let res := moisBoucle taux_mensuel paiement_mensuel 12 0 0 solde
    { annee := annee,
      paiement_annuel := round2 (paiement_mensuel * 12),
      interets := round2 res.1,
      capital_rembourse := round2 res.2.1,
      solde_restant := round2 (max res.2.2 0) }
      :: anneesBoucle taux_mensuel paiement_mensuel (annee + 1) k res.2.2

/-- Model of `tableau_amortissement(montant, taux_annuel, amortissement_annees, annees)`.
Python defaults (25, 10) are passed explicitly at call sites. -/
def tableau_amortissement (montant taux_annuel : ℚ)
    (amortissement_annees annees : ℕ) : List AmorRow :=
  let taux_mensuel := taux_annuel / 100 / 12
  let paiement_mensuel :=
    calculer_paiement_hypothecaire montant taux_annuel amortissement_annees
  anneesBoucle taux_mensuel paiement_mensuel 1 annees montant

/-! ### Year-1 analysis (`analyse_annee_1`, lines 159-229) -/

/-- The flat result mapping of `analyse_annee_1`, one field per dict key. -/
structure Annee1 where
  revenus_bruts : ℚ
  vacance : ℚ
  revenus_nets : ℚ
  depenses_exploitation : ℚ
  noi : ℚ
  service_dette : ℚ
  cashflow : ℚ
  hypotheque : ℚ
  csd : ℚ
  ltv : ℚ
  rendement_mdf : ℚ
  cap_rate : ℚ
  cash_on_cash : ℚ
  mise_de_fonds_totale : ℚ
deriving DecidableEq

/-- Model of `analyse_annee_1`.  The optional `couts_initiaux` dict is modelled by an
optional total: the function only reads its `"Total coûts initiaux"` key,
with the same fallback value as the `None` branch.  Python defaults
(5, 0, 0, 0, 0, 0, 0, 20, 5, 25, None) are passed explicitly at call
sites. -/
def analyse_annee_1 (prix revenus_bruts_annuels taux_inoccupation
    taxes_municipales taxes_scolaires assurances entretien gestion_pct
    autres_depenses mise_de_fonds_pct taux_interet : ℚ)
    (amortissement : ℕ) (couts_initiaux : Option ℚ) : Annee1 :=
  let vacance := revenus_bruts_annuels * (taux_inoccupation / 100)
  let revenus_nets := revenus_bruts_annuels - vacance
  let frais_gestion := revenus_nets * (gestion_pct / 100)
  let depenses := taxes_municipales + taxes_scolaires + assurances
    + entretien + frais_gestion + autres_depenses
  let noi := revenus_nets - depenses
  let hypotheque := prix * (1 - mise_de_fonds_pct / 100)
  let paiement_mensuel :=
    calculer_paiement_hypothecaire hypotheque taux_interet amortissement
  let service_dette_annuel := paiement_mensuel * 12
  let cashflow := noi - service_dette_annuel
  let mise_de_fonds_totale :=
    couts_initiaux.getD (prix * (mise_de_fonds_pct / 100))
  let csd := if 0 < service_dette_annuel then revenus_nets / service_dette_annuel else 0
  let ltv := if 0 < prix then hypotheque / prix else 0
  let rendement_mdf :=
    if 0 < mise_de_fonds_totale then cashflow / mise_de_fonds_totale * 100 else 0
  let cap_rate := if 0 < prix then noi / prix * 100 else 0
  let cash_on_cash :=
    if 0 < mise_de_fonds_totale then cashflow / mise_de_fonds_totale * 100 else 0
  { revenus_bruts := round2 revenus_bruts_annuels,
    vacance := round2 vacance,
    revenus_nets := round2 revenus_nets,
    depenses_exploitation := round2 depenses,
    noi := round2 noi,
    service_dette := round2 service_dette_annuel,
    cashflow := round2 cashflow,
    hypotheque := round2 hypotheque,
    csd := round3 csd,
    ltv := round1 (ltv * 100),
    rendement_mdf := round2 rendement_mdf,
    cap_rate := round2 cap_rate,
    cash_on_cash := round2 cash_on_cash,
    mise_de_fonds_totale := round2 mise_de_fonds_totale }

/-! ### 10-year projection (`projection_10_ans`, lines 236-335) -/

/-- One row of the projection table. -/
structure ProjRow where
  annee : ℕ
  revenus_bruts : ℚ
  revenus_nets : ℚ
  depenses : ℚ
  noi : ℚ
  service_dette : ℚ
  cashflow : ℚ
  cashflow_cumule : ℚ
  valeur_immeuble : ℚ
  solde_hypotheque : ℚ
  equite : ℚ
deriving DecidableEq

/-- The body of the `for i in range(annees)` loop of `projection_10_ans`,
consuming the amortization rows in order.  State: the 0-based index `i`,
gross rents, expenses, property value and cumulative cash flow carried from
the previous iteration.  Returns the rows plus the final property value and
cumulative cash flow, which the summary fields read after the loop. -/
def projBoucle (taux_inoccupation croissance_loyers inflation_depenses
    appreciation_immeuble : ℚ) :
    List AmorRow → ℕ → ℚ → ℚ → ℚ → ℚ → List ProjRow × ℚ × ℚ
  | [], _, _, _, valeur_immeuble, cashflow_cumule =>
    ([], valeur_immeuble, cashflow_cumule)
  | amor_row :: rest, i, revenus_bruts0, depenses0, valeur0, cumule0 =>
    let revenus_bruts :=
      if 0 < i then revenus_bruts0 * (1 + croissance_loyers / 100) else revenus_bruts0
    let depenses :=
      if 0 < i then depenses0 * (1 + inflation_depenses / 100) else depenses0
    let vacance := revenus_bruts * (taux_inoccupation / 100)
    let revenus_nets := revenus_bruts - vacance
    let noi := revenus_nets - depenses
    let service_dette := amor_row.paiement_annuel
    let cashflow := noi - service_dette
    let cashflow_cumule := cumule0 + cashflow
    let valeur_immeuble :=
      if 0 < i then valeur0 * (1 + appreciation_immeuble / 100) else valeur0
    let solde_hypotheque := amor_row.solde_restant
    let equite := valeur_immeuble - solde_hypotheque
    let row : ProjRow :=
      { annee := i + 1,
        revenus_bruts := round2 revenus_bruts,
        revenus_nets := round2 revenus_nets,
        depenses := round2 depenses,
        noi := round2 noi,
        service_dette := round2 service_dette,
        cashflow := round2 cashflow,
        cashflow_cumule := round2 cashflow_cumule,
        valeur_immeuble := round2 valeur_immeuble,
        solde_hypotheque := round2 solde_hypotheque,
        equite := round2 equite }
    let res := projBoucle taux_inoccupation croissance_loyers inflation_depenses
      appreciation_immeuble rest (i + 1) revenus_bruts depenses
      valeur_immeuble cashflow_cumule
    (row :: res.1, res.2)

/-- The summary record returned by `projection_10_ans`.  The `TRI (%)` and
`VAN ($)` fields are omitted from the model: they come from the optional
`numpy_financial` solver and are `None` whenever it is unavailable or fails,
a graceful-absence path outside the claims. -/
structure Projection where
  projection : List ProjRow
  cashflow_cumule : ℚ
  equite_finale : ℚ
  valeur_projetee : ℚ
  rendement_cumule : Option ℚ
deriving DecidableEq

/-- Model of `projection_10_ans`; `noi_an1` is accepted and ignored exactly as in the
source (the NOI is recomputed each year).  The final-row reads
(`projection[-1]`) are modelled with `List.getLast?`; on an empty projection
(`annees = 0`) the Python code would raise an `IndexError`, the model
returns the `Option` defaults.  Python defaults are passed explicitly at
call sites. -/
def projection_10_ans (prix revenus_bruts_annuels depenses_exploitation_an1
    noi_an1 taux_inoccupation mise_de_fonds_pct taux_interet : ℚ)
    (amortissement : ℕ)
    (croissance_loyers inflation_depenses appreciation_immeuble
      mise_de_fonds_totale : ℚ) (annees : ℕ) : Projection :=
  let hypotheque := prix * (1 - mise_de_fonds_pct / 100)
  let amor := tableau_amortissement hypotheque taux_interet amortissement annees
  let res := projBoucle taux_inoccupation croissance_loyers inflation_depenses
    appreciation_immeuble amor 0 revenus_bruts_annuels
    depenses_exploitation_an1 prix 0
  let rows := res.1
  let valeur_immeuble := res.2.1
  let cashflow_cumule := res.2.2
  let dernier_equite := ((rows.getLast?).map ProjRow.equite).getD 0
  let dernier_solde := ((rows.getLast?).map ProjRow.solde_hypotheque).getD 0
  let rendement_cumule :=
    if 0 < mise_de_fonds_totale then
      some (round2 ((cashflow_cumule + (valeur_immeuble - prix)
        + (hypotheque - dernier_solde)) / mise_de_fonds_totale * 100))
    else none
  { projection := rows,
    cashflow_cumule := round2 cashflow_cumule,
    equite_finale := round2 dernier_equite,
    valeur_projetee := round2 valeur_immeuble,
    rendement_cumule := rendement_cumule }

/-! ### Financial indicators (`calculer_indicateurs`, lines 342-388) -/

/-- The result mapping of `calculer_indicateurs`.  `delai_recuperation` is
`none` for the Python `float("inf")` sentinel (displayed as the infinity
glyph).  The interest-rate sensitivity dict is modelled as an association
list keyed by the new rate itself (the Python key is that rate formatted to
one decimal; the four offset rates are pairwise distinct, 0.5 points
apart). -/
structure Indicateurs where
  cap_rate : ℚ
  cash_on_cash : ℚ
  csd : ℚ
  ltv : ℚ
  delai_recuperation : Option ℚ
  grm : ℚ
  sensibilite : List (ℚ × ℚ)
deriving DecidableEq

/-- The `for delta in [-1.0, -0.5, 0.5, 1.0]` sensitivity loop: offsets whose
resulting rate is not positive contribute no entry. -/
def sensibiliteBoucle (noi taux_interet hypotheque : ℚ) : List ℚ → List (ℚ × ℚ)
  | [] => []
  | delta :: rest =>
    let nouveau_taux := taux_interet + delta
    if 0 < nouveau_taux then
      let nouveau_paiement :=
        calculer_paiement_hypothecaire hypotheque nouveau_taux 25 * 12
      let nouveau_cashflow := noi - nouveau_paiement
      (nouveau_taux, round2 nouveau_cashflow)
        :: sensibiliteBoucle noi taux_interet hypotheque rest
    else sensibiliteBoucle noi taux_interet hypotheque rest

/-- Model of `calculer_indicateurs`.  The sensitivity recomputation calls the payment
function without an amortization argument, hence with its default of 25
years.  Python defaults (`taux_interet = 5`, `hypotheque = 0`) are passed
explicitly at call sites. -/
def calculer_indicateurs (prix noi cashflow mise_de_fonds_totale
    service_dette revenus_nets taux_interet hypotheque : ℚ) : Indicateurs :=
  let cap_rate := if 0 < prix then noi / prix * 100 else 0
  let cash_on_cash :=
    if 0 < mise_de_fonds_totale then cashflow / mise_de_fonds_totale * 100 else 0
  let csd := if 0 < service_dette then revenus_nets / service_dette else 0
  let ltv := if 0 < prix then hypotheque / prix * 100 else 0
  let delai_recuperation :=
    if 0 < cashflow then some (mise_de_fonds_totale / cashflow) else none
  let grm := if 0 < noi then prix / (noi / (1 - 0.05)) else 0
  { cap_rate := round2 cap_rate,
    cash_on_cash := round2 cash_on_cash,
    csd := round3 csd,
    ltv := round1 ltv,
    delai_recuperation := delai_recuperation.map round1,
    grm := round2 grm,
    sensibilite := sensibiliteBoucle noi taux_interet hypotheque [-1, -0.5, 0.5, 1] }

/-! ### Location scoring (`calculer_score_localisation`, src/location.py)

`CRITERES` is the fixed 8-criterion catalog; the unused `description`
strings are presentation text and are not carried.  The apostrophe of the
label of the vacancy criterion is transcribed as the typographic apostrophe
U+2019. -/

/-- One catalog entry: identifier, display label, weight, and the
option-label to score table. -/
structure Critere where
  id : String
  label : String
  poids : ℚ
  options : List (String × ℚ)
deriving DecidableEq

/-- The `CRITERES` catalog. -/
def CRITERES : List Critere :=
  [⟨"croissance_demographique", "📈 Croissance démographique", 1.5,
    [("Forte croissance (> 3%/an)", 10), ("Croissance modérée (1-3%/an)", 7),
     ("Stable", 5), ("Déclin léger", 3), ("Déclin important", 1)]⟩,
   ⟨"niveau_loyers", "💰 Niveau des loyers", 1.5,
    [("Très élevés (forte demande)", 10), ("Au-dessus de la moyenne", 8),
     ("Dans la moyenne", 6), ("Sous la moyenne", 3), ("Très bas", 1)]⟩,
   ⟨"taux_inoccupation", "🏚️ Taux d’inoccupation", 2.0,
    [("Très faible (< 1%)", 10), ("Faible (1-3%)", 8), ("Modéré (3-5%)", 6),
     ("Élevé (5-8%)", 3), ("Très élevé (> 8%)", 1)]⟩,
   ⟨"transport", "🚌 Transport en commun", 1.0,
    [("Excellent (métro/train à pied)", 10), ("Bon (bus fréquent)", 7),
     ("Moyen", 5), ("Limité", 3), ("Inexistant", 1)]⟩,
   ⟨"ecoles", "🏫 Écoles et services", 1.0,
    [("Excellent (tout à pied)", 10), ("Bon", 7), ("Moyen", 5),
     ("Limité", 3), ("Très limité", 1)]⟩,
   ⟨"commerces", "🛒 Commerces et commodités", 1.0,
    [("Excellent (quartier commercial)", 10), ("Bon", 7), ("Moyen", 5),
     ("Limité", 3), ("Très limité", 1)]⟩,
   ⟨"securite", "🔒 Sécurité du quartier", 1.5,
    [("Très sécuritaire", 10), ("Sécuritaire", 8), ("Moyen", 5),
     ("Problématique", 3), ("Dangereux", 1)]⟩,
   ⟨"risque_locatif", "⚠️ Risque locatif", 1.5,
    [("Très faible", 10), ("Faible", 8), ("Modéré", 5), ("Élevé", 3),
     ("Très élevé", 1)]⟩]

/-- One row of the per-criterion detail list. -/
structure DetailScore where
  critere : String
  reponse : String
  score : ℚ
  poids : ℚ
  score_pondere : ℚ
deriving DecidableEq

/-- The result of `calculer_score_localisation`. -/
structure ScoreLocalisation where
  score_global : ℚ
  appreciation : String
  couleur : String
  details : List DetailScore
  scores_radar : List (String × Option String)
  valeurs_radar : List (String × ℚ)
deriving DecidableEq

/-- The `for critere_id, critere_info in CRITERES.items()` loop: walks the
catalog in order, skipping unanswered criteria, defaulting unrecognized
option labels to a score of 5, and accumulating the detail rows (appended in
order), the weighted total and the weight total. -/
def scoreBoucle (reponses : List (String × String)) :
    List Critere → List DetailScore → ℚ → ℚ →
    List DetailScore × ℚ × ℚ
  | [], details, total_pondere, total_poids => (details, total_pondere, total_poids)
  | c :: rest, details, total_pondere, total_poids =>
    match reponses.lookup c.id with
    | none => scoreBoucle reponses rest details total_pondere total_poids
    | some option =>
      let score := (c.options.lookup option).getD 5
      let detail : DetailScore :=
        { critere := c.label, reponse := option, score := score,
          poids := c.poids, score_pondere := round1 (score * c.poids) }
      scoreBoucle reponses rest (details ++ [detail])
        (total_pondere + score * c.poids) (total_poids + c.poids)

/-- Model of `calculer_score_localisation(reponses)`.  The Python answer dict is
modelled as an association list consulted only through `List.lookup`, the
model of `dict.get`. -/
def calculer_score_localisation (reponses : List (String × String)) :
    ScoreLocalisation :=
  let res := scoreBoucle reponses CRITERES [] 0 0
  let total_pondere := res.2.1
  let total_poids := res.2.2
  let score_global := if 0 < total_poids then round1 (total_pondere / total_poids) else 0
  let ac : String × String :=
    if 8.5 ≤ score_global then ("🟢 Excellent emplacement", "#00c853")
    else if 7.0 ≤ score_global then ("🟢 Bon emplacement", "#64dd17")
    else if 5.5 ≤ score_global then ("🟡 Emplacement correct", "#ffd600")
    else if 4.0 ≤ score_global then ("🟠 Emplacement à risque modéré", "#ff9100")
    else ("🔴 Emplacement à risque élevé", "#ff1744")
  { score_global := score_global,
    appreciation := ac.1,
    couleur := ac.2,
    details := res.1,
    scores_radar := CRITERES.map (fun c => (c.label, reponses.lookup c.id)),
    valeurs_radar := CRITERES.map (fun c =>
      (c.label, (c.options.lookup ((reponses.lookup c.id).getD "")).getD 0)) }

/-! Lemmas about the rounding helpers, the tax loop, and cent values. -/

theorem round2_zero : round2 0 = 0 := by
  simp [round2]

theorem isCent_round2 (x : ℚ) : IsCent (round2 x) :=
  ⟨round (x * 100), rfl⟩

theorem isCent_zero : IsCent 0 := ⟨0, by norm_num⟩

theorem IsCent.mul12 {q : ℚ} (h : IsCent q) : IsCent (q * 12) := by
  obtain ⟨k, hk⟩ := h
  exact ⟨k * 12, by rw [hk]; push_cast; ring⟩

theorem round2_intDiv (k : ℤ) : round2 ((k : ℚ) / 100) = (k : ℚ) / 100 := by
  have h : ((k : ℚ) / 100) * 100 = (k : ℚ) := by ring
  rw [round2, h, round_intCast]

theorem round2_of_isCent {q : ℚ} (h : IsCent q) : round2 q = q := by
  obtain ⟨k, hk⟩ := h
  rw [hk, round2_intDiv]

theorem round2_sub_intDiv (a : ℚ) (k : ℤ) :
    round2 (a - (k : ℚ) / 100) = round2 a - (k : ℚ) / 100 := by
  have h : (a - (k : ℚ) / 100) * 100 = a * 100 - (k : ℚ) := by ring
  rw [round2, h, round_sub_int, round2]
  push_cast
  ring

theorem round2_sub_of_isCent (a : ℚ) {b : ℚ} (h : IsCent b) :
    round2 (a - b) = round2 a - b := by
  obtain ⟨k, hk⟩ := h
  rw [hk, round2_sub_intDiv]

/-- Evaluation rule for `round2` at a concrete rational: it suffices to
bracket `x * 100 + 1/2` between the integer `k` and `k + 1`. -/
theorem round2_eq (x : ℚ) (k : ℤ) (h1 : (k : ℚ) ≤ x * 100 + 1/2)
    (h2 : x * 100 + 1/2 < k + 1) : round2 x = (k : ℚ) / 100 := by
  have hf : ⌊x * 100 + 1/2⌋ = k := Int.floor_eq_iff.mpr ⟨h1, by exact_mod_cast h2⟩
  rw [round2, round_eq, hf]

/-- Evaluation rule for `round1`, as for `round2`. -/
theorem round1_eq (x : ℚ) (k : ℤ) (h1 : (k : ℚ) ≤ x * 10 + 1/2)
    (h2 : x * 10 + 1/2 < k + 1) : round1 x = (k : ℚ) / 10 := by
  have hf : ⌊x * 10 + 1/2⌋ = k := Int.floor_eq_iff.mpr ⟨h1, by exact_mod_cast h2⟩
  rw [round1, round_eq, hf]

theorem round2_mono {a b : ℚ} (h : a ≤ b) : round2 a ≤ round2 b := by
  have h100 : a * 100 ≤ b * 100 := by nlinarith
  have hr : round (a * 100) ≤ round (b * 100) := by
    rw [round_eq, round_eq]
    exact Int.floor_mono (by linarith)
  rw [round2, round2]
  have : ((round (a * 100) : ℤ) : ℚ) ≤ ((round (b * 100) : ℤ) : ℚ) :=
    Int.cast_le.mpr hr
  linarith

theorem minSeuil_mono {p1 p2 : ℚ} (h : p1 ≤ p2) (o : Option ℚ) :
    minSeuil p1 o ≤ minSeuil p2 o := by
  cases o with
  | none => exact h
  | some s => exact min_le_min h le_rfl

theorem montant_nonneg {q p : ℚ} {o : Option ℚ} (hq : q < p)
    (ho : precLE (some q) o) : 0 ≤ minSeuil p o - q := by
  cases o with
  | none => simp [minSeuil]; linarith
  | some s =>
    simp only [minSeuil, precLE] at *
    have : q ≤ min p s := le_min (le_of_lt hq) ho
    linarith

/-- The tax loop never decreases its accumulator on a well-formed schedule. -/
theorem droitsBoucle_ge (p : ℚ) :
    ∀ l : List Tranche, ∀ prec : Option ℚ, ∀ acc : ℚ,
      chaine prec l → tauxNonneg l → acc ≤ droitsBoucle p l prec acc := by
  intro l
  induction l with
  | nil => intro prec acc _ _; simp [droitsBoucle]
  | cons t rest ih =>
    intro prec acc hc hr
    rw [droitsBoucle]
    split
    · exact le_rfl
    · rename_i hna
      cases prec with
      | none => exact absurd trivial hna
      | some q =>
        have hq : q < p := not_le.mp (fun h => hna h)
        have hm : 0 ≤ minSeuil p t.seuil - q := montant_nonneg hq hc.1
        have ht : 0 ≤ t.taux := hr t (List.mem_cons_self t rest)
        have step : acc ≤ acc + (minSeuil p t.seuil - (some q).getD 0) * t.taux := by
          simp only [Option.getD]
          nlinarith
        exact le_trans step
          (ih t.seuil _ hc.2 (fun u hu => hr u (List.mem_cons_of_mem t hu)))

/-- The tax loop is monotone in the price on a well-formed schedule. -/
theorem droitsBoucle_mono {p1 p2 : ℚ} (h12 : p1 ≤ p2) :
    ∀ l : List Tranche, ∀ prec : Option ℚ, ∀ acc1 acc2 : ℚ,
      acc1 ≤ acc2 → chaine prec l → tauxNonneg l →
      droitsBoucle p1 l prec acc1 ≤ droitsBoucle p2 l prec acc2 := by
  intro l
  induction l with
  | nil => intro prec acc1 acc2 hacc _ _; simpa [droitsBoucle] using hacc
  | cons t rest ih =>
    intro prec acc1 acc2 hacc hc hr
    have hrrest : tauxNonneg rest := fun u hu => hr u (List.mem_cons_of_mem t hu)
    have ht : 0 ≤ t.taux := hr t (List.mem_cons_self t rest)
    rw [droitsBoucle, droitsBoucle]
    by_cases h2 : seuilAtteint p2 prec
    · have h1 : seuilAtteint p1 prec := by
        cases prec with
        | none => trivial
        | some s => exact le_trans h12 h2
      rw [if_pos h1, if_pos h2]
      exact hacc
    · rw [if_neg h2]
      cases prec with
      | none => exact absurd trivial h2
      | some q =>
        have hq2 : q < p2 := not_le.mp (fun h => h2 h)
        have hm2 : 0 ≤ minSeuil p2 t.seuil - q := montant_nonneg hq2 hc.1
        by_cases h1 : seuilAtteint p1 (some q)
        · rw [if_pos h1]
          have base : acc1 ≤ acc2 + (minSeuil p2 t.seuil - (some q).getD 0) * t.taux := by
            simp only [Option.getD]
            nlinarith
          exact le_trans base (droitsBoucle_ge p2 rest t.seuil _ hc.2 hrrest)
        · rw [if_neg h1]
          have hmono : minSeuil p1 t.seuil ≤ minSeuil p2 t.seuil := minSeuil_mono h12 _
          have hacc2 : acc1 + (minSeuil p1 t.seuil - (some q).getD 0) * t.taux
              ≤ acc2 + (minSeuil p2 t.seuil - (some q).getD 0) * t.taux := by
            simp only [Option.getD]
            nlinarith
          exact ih t.seuil _ _ hacc2 hc.2 hrrest

/-! #### Closed forms of the tax loop on the concrete schedules, per price
segment (used for the Montréal-vs-general comparison). -/

theorem droitsQC_gt315000 {p : ℚ} (h : 315000 < p) :
    droitsBoucle p TRANCHES_MUTATION_QC_2026 (some 0) 0
      = 62900 * 0.005 + (315000 - 62900) * 0.01 + (p - 315000) * 0.015 := by
  have h0 : ¬ seuilAtteint p (some (0 : ℚ)) := by
    simp only [seuilAtteint]; linarith
  have h1 : ¬ seuilAtteint p (some (62900 : ℚ)) := by
    simp only [seuilAtteint]; linarith
  have h2 : ¬ seuilAtteint p (some (315000 : ℚ)) := by
    simp only [seuilAtteint]; linarith
  have m1 : min p 62900 = (62900 : ℚ) := min_eq_right (by linarith)
  have m2 : min p 315000 = (315000 : ℚ) := min_eq_right (by linarith)
  simp only [TRANCHES_MUTATION_QC_2026, droitsBoucle, if_neg h0, if_neg h1, if_neg h2,
    minSeuil, Option.getD, m1, m2]
  ring

theorem droitsMTL_seg1 {p : ℚ} (h5 : 500000 < p) (h10 : p ≤ 1000000) :
    droitsBoucle p TRANCHES_MUTATION_MTL_2026 (some 0) 0
      = 62900 * 0.005 + (315000 - 62900) * 0.01 + (500000 - 315000) * 0.015
        + (p - 500000) * 0.02 := by
  have h0 : ¬ seuilAtteint p (some (0 : ℚ)) := by
    simp only [seuilAtteint]; linarith
  have h1 : ¬ seuilAtteint p (some (62900 : ℚ)) := by
    simp only [seuilAtteint]; linarith
  have h2 : ¬ seuilAtteint p (some (315000 : ℚ)) := by
    simp only [seuilAtteint]; linarith
  have h3 : ¬ seuilAtteint p (some (500000 : ℚ)) := by
    simp only [seuilAtteint]; linarith
  have h4 : seuilAtteint p (some (1000000 : ℚ)) := h10
  have m1 : min p 62900 = (62900 : ℚ) := min_eq_right (by linarith)
  have m2 : min p 315000 = (315000 : ℚ) := min_eq_right (by linarith)
  have m3 : min p 500000 = (500000 : ℚ) := min_eq_right (by linarith)
  have m4 : min p 1000000 = p := min_eq_left h10
  simp only [TRANCHES_MUTATION_MTL_2026, droitsBoucle, if_neg h0, if_neg h1, if_neg h2,
    if_neg h3, if_pos h4, minSeuil, Option.getD, m1, m2, m3, m4]
  ring

theorem droitsMTL_seg2 {p : ℚ} (h5 : 1000000 < p) (h10 : p ≤ 2000000) :
    droitsBoucle p TRANCHES_MUTATION_MTL_2026 (some 0) 0
      = 62900 * 0.005 + (315000 - 62900) * 0.01 + (500000 - 315000) * 0.015
        + (1000000 - 500000) * 0.02 + (p - 1000000) * 0.025 := by
  have h0 : ¬ seuilAtteint p (some (0 : ℚ)) := by
    simp only [seuilAtteint]; linarith
  have h1 : ¬ seuilAtteint p (some (62900 : ℚ)) := by
    simp only [seuilAtteint]; linarith
  have h2 : ¬ seuilAtteint p (some (315000 : ℚ)) := by
    simp only [seuilAtteint]; linarith
  have h3 : ¬ seuilAtteint p (some (500000 : ℚ)) := by
    simp only [seuilAtteint]; linarith
  have h4 : ¬ seuilAtteint p (some (1000000 : ℚ)) := by
    simp only [seuilAtteint]; linarith
  have h6 : seuilAtteint p (some (2000000 : ℚ)) := h10
  have m1 : min p 62900 = (62900 : ℚ) := min_eq_right (by linarith)
  have m2 : min p 315000 = (315000 : ℚ) := min_eq_right (by linarith)
  have m3 : min p 500000 = (500000 : ℚ) := min_eq_right (by linarith)
  have m4 : min p 1000000 = (1000000 : ℚ) := min_eq_right (by linarith)
  have m5 : min p 2000000 = p := min_eq_left h10
  simp only [TRANCHES_MUTATION_MTL_2026, droitsBoucle, if_neg h0, if_neg h1, if_neg h2,
    if_neg h3, if_neg h4, if_pos h6, minSeuil, Option.getD, m1, m2, m3, m4, m5]
  ring

theorem droitsMTL_seg3 {p : ℚ} (h5 : 2000000 < p) (h10 : p ≤ 3113000) :
    droitsBoucle p TRANCHES_MUTATION_MTL_2026 (some 0) 0
      = 62900 * 0.005 + (315000 - 62900) * 0.01 + (500000 - 315000) * 0.015
        + (1000000 - 500000) * 0.02 + (2000000 - 1000000) * 0.025
        + (p - 2000000) * 0.035 := by
  have h0 : ¬ seuilAtteint p (some (0 : ℚ)) := by
    simp only [seuilAtteint]; linarith
  have h1 : ¬ seuilAtteint p (some (62900 : ℚ)) := by
    simp only [seuilAtteint]; linarith
  have h2 : ¬ seuilAtteint p (some (315000 : ℚ)) := by
    simp only [seuilAtteint]; linarith
  have h3 : ¬ seuilAtteint p (some (500000 : ℚ)) := by
    simp only [seuilAtteint]; linarith
  have h4 : ¬ seuilAtteint p (some (1000000 : ℚ)) := by
    simp only [seuilAtteint]; linarith
  have h6 : ¬ seuilAtteint p (some (2000000 : ℚ)) := by
    simp only [seuilAtteint]; linarith
  have h7 : seuilAtteint p (some (3113000 : ℚ)) := h10
  have m1 : min p 62900 = (62900 : ℚ) := min_eq_right (by linarith)
  have m2 : min p 315000 = (315000 : ℚ) := min_eq_right (by linarith)
  have m3 : min p 500000 = (500000 : ℚ) := min_eq_right (by linarith)
  have m4 : min p 1000000 = (1000000 : ℚ) := min_eq_right (by linarith)
  have m5 : min p 2000000 = (2000000 : ℚ) := min_eq_right (by linarith)
  have m6 : min p 3113000 = p := min_eq_left h10
  simp only [TRANCHES_MUTATION_MTL_2026, droitsBoucle, if_neg h0, if_neg h1, if_neg h2,
    if_neg h3, if_neg h4, if_neg h6, if_pos h7, minSeuil, Option.getD,
    m1, m2, m3, m4, m5, m6]
  ring

theorem droitsMTL_seg4 {p : ℚ} (h5 : 3113000 < p) :
    droitsBoucle p TRANCHES_MUTATION_MTL_2026 (some 0) 0
      = 62900 * 0.005 + (315000 - 62900) * 0.01 + (500000 - 315000) * 0.015
        + (1000000 - 500000) * 0.02 + (2000000 - 1000000) * 0.025
        + (3113000 - 2000000) * 0.035 + (p - 3113000) * 0.04 := by
  have h0 : ¬ seuilAtteint p (some (0 : ℚ)) := by
    simp only [seuilAtteint]; linarith
  have h1 : ¬ seuilAtteint p (some (62900 : ℚ)) := by
    simp only [seuilAtteint]; linarith
  have h2 : ¬ seuilAtteint p (some (315000 : ℚ)) := by
    simp only [seuilAtteint]; linarith
  have h3 : ¬ seuilAtteint p (some (500000 : ℚ)) := by
    simp only [seuilAtteint]; linarith
  have h4 : ¬ seuilAtteint p (some (1000000 : ℚ)) := by
    simp only [seuilAtteint]; linarith
  have h6 : ¬ seuilAtteint p (some (2000000 : ℚ)) := by
    simp only [seuilAtteint]; linarith
  have h7 : ¬ seuilAtteint p (some (3113000 : ℚ)) := by
    simp only [seuilAtteint]; linarith
  have m1 : min p 62900 = (62900 : ℚ) := min_eq_right (by linarith)
  have m2 : min p 315000 = (315000 : ℚ) := min_eq_right (by linarith)
  have m3 : min p 500000 = (500000 : ℚ) := min_eq_right (by linarith)
  have m4 : min p 1000000 = (1000000 : ℚ) := min_eq_right (by linarith)
  have m5 : min p 2000000 = (2000000 : ℚ) := min_eq_right (by linarith)
  have m6 : min p 3113000 = (3113000 : ℚ) := min_eq_right (by linarith)
  simp only [TRANCHES_MUTATION_MTL_2026, droitsBoucle, if_neg h0, if_neg h1, if_neg h2,
    if_neg h3, if_neg h4, if_neg h6, if_neg h7, minSeuil, Option.getD,
    m1, m2, m3, m4, m5, m6]
  ring

theorem isCent_paiement (montant taux_annuel : ℚ) (a : ℕ) :
    IsCent (calculer_paiement_hypothecaire montant taux_annuel a) := by
  rw [calculer_paiement_hypothecaire]
  split
  · exact isCent_zero
  · exact isCent_round2 _

/-! ## Claim theorems -/

/-- C1: for every input combination to `analyse_annee_1`, the returned
`Cashflow` field equals the returned `NOI` field minus the returned
`Service de dette` field, exactly (the annual debt service is a whole
number of cents, so the cent rounding distributes over the subtraction). -/
theorem C1_cashflow_est_noi_moins_service (prix revenus_bruts_annuels
    taux_inoccupation taxes_municipales taxes_scolaires assurances entretien
    gestion_pct autres_depenses mise_de_fonds_pct taux_interet : ℚ)
    (amortissement : ℕ) (couts_initiaux : Option ℚ) :
    (analyse_annee_1 prix revenus_bruts_annuels taux_inoccupation
        taxes_municipales taxes_scolaires assurances entretien gestion_pct
        autres_depenses mise_de_fonds_pct taux_interet amortissement
        couts_initiaux).cashflow
      = (analyse_annee_1 prix revenus_bruts_annuels taux_inoccupation
          taxes_municipales taxes_scolaires assurances entretien gestion_pct
          autres_depenses mise_de_fonds_pct taux_interet amortissement
          couts_initiaux).noi
        - (analyse_annee_1 prix revenus_bruts_annuels taux_inoccupation
            taxes_municipales taxes_scolaires assurances entretien gestion_pct
            autres_depenses mise_de_fonds_pct taux_interet amortissement
            couts_initiaux).service_dette := by
  have hc : IsCent (calculer_paiement_hypothecaire
      (prix * (1 - mise_de_fonds_pct / 100)) taux_interet amortissement * 12) :=
    (isCent_paiement _ _ _).mul12
  simp only [analyse_annee_1]
  rw [round2_sub_of_isCent _ hc, round2_of_isCent hc]

/-- C3 counterexample: with price 100 and a 200% down payment, the returned
`Hypothèque` field is −100, not 0, so the claim fails as stated. -/
theorem C3_contre_exemple :
    ¬ ((analyse_annee_1 100 0 5 0 0 0 0 0 0 200 5 25 none).hypotheque = 0 ∧
       (analyse_annee_1 100 0 5 0 0 0 0 0 0 200 5 25 none).service_dette = 0) := by
  have hval : (analyse_annee_1 100 0 5 0 0 0 0 0 0 200 5 25 none).hypotheque
      = -100 := by
    simp only [analyse_annee_1]
    rw [round2_eq (100 * (1 - 200 / 100)) (-10000) (by norm_num) (by norm_num)]
    norm_num
  rintro ⟨h0, -⟩
  rw [hval] at h0
  norm_num at h0

/-- C3 amended: for every input to `analyse_annee_1` with down-payment
percentage ≥ 100 and price ≥ 0, the returned annual debt service is 0 and
the returned loan principal is `round2 (prix * (1 − pct/100))`, which is
≤ 0 (it is 0 only when the down payment is exactly 100% or the price is
0, and negative otherwise). -/
theorem C3_amende (prix revenus_bruts_annuels taux_inoccupation
    taxes_municipales taxes_scolaires assurances entretien gestion_pct
    autres_depenses mise_de_fonds_pct taux_interet : ℚ)
    (amortissement : ℕ) (couts_initiaux : Option ℚ)
    (hpct : 100 ≤ mise_de_fonds_pct) (hprix : 0 ≤ prix) :
    (analyse_annee_1 prix revenus_bruts_annuels taux_inoccupation
        taxes_municipales taxes_scolaires assurances entretien gestion_pct
        autres_depenses mise_de_fonds_pct taux_interet amortissement
        couts_initiaux).service_dette = 0 ∧
    (analyse_annee_1 prix revenus_bruts_annuels taux_inoccupation
        taxes_municipales taxes_scolaires assurances entretien gestion_pct
        autres_depenses mise_de_fonds_pct taux_interet amortissement
        couts_initiaux).hypotheque
      = round2 (prix * (1 - mise_de_fonds_pct / 100)) ∧
    (analyse_annee_1 prix revenus_bruts_annuels taux_inoccupation
        taxes_municipales taxes_scolaires assurances entretien gestion_pct
        autres_depenses mise_de_fonds_pct taux_interet amortissement
        couts_initiaux).hypotheque ≤ 0 := by
  have hfac : 1 - mise_de_fonds_pct / 100 ≤ 0 := by linarith
  have hhyp : prix * (1 - mise_de_fonds_pct / 100) ≤ 0 := by nlinarith
  have hpay : calculer_paiement_hypothecaire
      (prix * (1 - mise_de_fonds_pct / 100)) taux_interet amortissement = 0 := by
    rw [calculer_paiement_hypothecaire, if_pos (Or.inl hhyp)]
  refine ⟨?_, ?_, ?_⟩
  · simp only [analyse_annee_1, hpay]
    norm_num [round2_zero]
  · simp only [analyse_annee_1]
  · simp only [analyse_annee_1]
    have := round2_mono hhyp
    rwa [round2_zero] at this

/-! Helper lemmas for the concrete mutation-tax and payment evaluations. -/

theorem paiement_240000_val :
    calculer_paiement_hypothecaire 240000 5 25 = 140302 / 100 := by
  have hcond : ¬ ((240000 : ℚ) ≤ 0 ∨ (5 : ℚ) ≤ 0) := by norm_num
  simp only [calculer_paiement_hypothecaire, if_neg hcond]
  rw [round2_eq _ 140302 (by norm_num) (by norm_num)]
  norm_num

theorem lookup_bareme_QC :
    (BAREMES.lookup "Québec (général)").getD TRANCHES_MUTATION_QC_2026
      = TRANCHES_MUTATION_QC_2026 := rfl

theorem lookup_bareme_MTL :
    (BAREMES.lookup "Montréal").getD TRANCHES_MUTATION_QC_2026
      = TRANCHES_MUTATION_MTL_2026 := rfl

theorem lookup_bareme_QCV :
    (BAREMES.lookup "Ville de Québec").getD TRANCHES_MUTATION_QC_2026
      = TRANCHES_MUTATION_QCV_2026 := rfl

theorem chaine_QC : chaine (some 0) TRANCHES_MUTATION_QC_2026 := by
  norm_num [chaine, precLE, TRANCHES_MUTATION_QC_2026]

theorem chaine_MTL : chaine (some 0) TRANCHES_MUTATION_MTL_2026 := by
  norm_num [chaine, precLE, TRANCHES_MUTATION_MTL_2026]

theorem chaine_QCV : chaine (some 0) TRANCHES_MUTATION_QCV_2026 := by
  norm_num [chaine, precLE, TRANCHES_MUTATION_QCV_2026]

theorem tauxNonneg_QC : tauxNonneg TRANCHES_MUTATION_QC_2026 := by
  norm_num [tauxNonneg, TRANCHES_MUTATION_QC_2026]

theorem tauxNonneg_MTL : tauxNonneg TRANCHES_MUTATION_MTL_2026 := by
  norm_num [tauxNonneg, TRANCHES_MUTATION_MTL_2026]

theorem tauxNonneg_QCV : tauxNonneg TRANCHES_MUTATION_QCV_2026 := by
  norm_num [tauxNonneg, TRANCHES_MUTATION_QCV_2026]

theorem droitsBoucle_zero : ∀ trs : List Tranche,
    droitsBoucle 0 trs (some 0) 0 = 0
  | [] => by simp [droitsBoucle]
  | t :: rest => by
    rw [droitsBoucle, if_pos (show seuilAtteint (0 : ℚ) (some 0) from le_refl 0)]

theorem droits_mono_of (name : String) (trs : List Tranche)
    (hlook : (BAREMES.lookup name).getD TRANCHES_MUTATION_QC_2026 = trs)
    (hc : chaine (some 0) trs) (hr : tauxNonneg trs)
    {p1 p2 : ℚ} (h12 : p1 ≤ p2) :
    calculer_droits_mutation p1 name ≤ calculer_droits_mutation p2 name := by
  rw [calculer_droits_mutation, calculer_droits_mutation, hlook]
  exact round2_mono (droitsBoucle_mono h12 trs (some 0) 0 0 le_rfl hc hr)

theorem droits_zero_of (name : String) (trs : List Tranche)
    (hlook : (BAREMES.lookup name).getD TRANCHES_MUTATION_QC_2026 = trs) :
    calculer_droits_mutation 0 name = 0 := by
  rw [calculer_droits_mutation, hlook, droitsBoucle_zero, round2_zero]

theorem droitsQC_at_300000 :
    droitsBoucle 300000 TRANCHES_MUTATION_QC_2026 (some 0) 0 = 5371 / 2 := by
  have h0 : ¬ seuilAtteint (300000 : ℚ) (some (0 : ℚ)) := by
    simp only [seuilAtteint]; norm_num
  have h1 : ¬ seuilAtteint (300000 : ℚ) (some (62900 : ℚ)) := by
    simp only [seuilAtteint]; norm_num
  have h2 : seuilAtteint (300000 : ℚ) (some (315000 : ℚ)) := by
    simp only [seuilAtteint]; norm_num
  have m1 : min (300000 : ℚ) 62900 = (62900 : ℚ) := min_eq_right (by norm_num)
  have m2 : min (300000 : ℚ) 315000 = (300000 : ℚ) := min_eq_left (by norm_num)
  simp only [TRANCHES_MUTATION_QC_2026, droitsBoucle, if_neg h0, if_neg h1,
    if_pos h2, minSeuil, Option.getD, m1, m2]
  norm_num

theorem droitsMTL_at_300000 :
    droitsBoucle 300000 TRANCHES_MUTATION_MTL_2026 (some 0) 0 = 5371 / 2 := by
  have h0 : ¬ seuilAtteint (300000 : ℚ) (some (0 : ℚ)) := by
    simp only [seuilAtteint]; norm_num
  have h1 : ¬ seuilAtteint (300000 : ℚ) (some (62900 : ℚ)) := by
    simp only [seuilAtteint]; norm_num
  have h2 : seuilAtteint (300000 : ℚ) (some (315000 : ℚ)) := by
    simp only [seuilAtteint]; norm_num
  have m1 : min (300000 : ℚ) 62900 = (62900 : ℚ) := min_eq_right (by norm_num)
  have m2 : min (300000 : ℚ) 315000 = (300000 : ℚ) := min_eq_left (by norm_num)
  simp only [TRANCHES_MUTATION_MTL_2026, droitsBoucle, if_neg h0, if_neg h1,
    if_pos h2, minSeuil, Option.getD, m1, m2]
  norm_num

theorem droits300000_QC :
    calculer_droits_mutation 300000 "Québec (général)" = 5371 / 2 := by
  rw [calculer_droits_mutation, lookup_bareme_QC, droitsQC_at_300000,
    round2_eq _ 268550 (by norm_num) (by norm_num)]
  norm_num

theorem droits300000_MTL :
    calculer_droits_mutation 300000 "Montréal" = 5371 / 2 := by
  rw [calculer_droits_mutation, lookup_bareme_MTL, droitsMTL_at_300000,
    round2_eq _ 268550 (by norm_num) (by norm_num)]
  norm_num

theorem droits600000_QC :
    calculer_droits_mutation 600000 "Québec (général)" = 14221 / 2 := by
  rw [calculer_droits_mutation, lookup_bareme_QC,
    droitsQC_gt315000 (by norm_num : (315000 : ℚ) < 600000),
    round2_eq _ 711050 (by norm_num) (by norm_num)]
  norm_num

theorem droits600000_MTL :
    calculer_droits_mutation 600000 "Montréal" = 15221 / 2 := by
  rw [calculer_droits_mutation, lookup_bareme_MTL,
    droitsMTL_seg1 (by norm_num : (500000 : ℚ) < 600000)
      (by norm_num : (600000 : ℚ) ≤ 1000000),
    round2_eq _ 761050 (by norm_num) (by norm_num)]
  norm_num

/-- C2 counterexample: the monthly payment on principal 240000, 5% annual
rate, 25-year amortization is not the claimed $1,400.76. -/
theorem C2_contre_exemple :
    calculer_paiement_hypothecaire 240000 5 25 ≠ 1400.76 := by
  rw [paiement_240000_val]
  norm_num

/-- C2 amended: for price 300000 with 20% down (principal 240000), 5%
annual rate and 25-year amortization, `calculer_paiement_hypothecaire`
returns $1,403.02, the value of the standard fixed-payment annuity formula
with monthly compounding rounded to the cent (the spec figure $1,400.76
does not match that formula). -/
theorem C2_paiement_amende :
    calculer_paiement_hypothecaire 240000 5 25 = 1403.02 := by
  rw [paiement_240000_val]
  norm_num

/-- C4: for every schedule of the `BAREMES` catalog, the mutation tax is
monotonically non-decreasing in the price, and the tax at price 0 is 0. -/
theorem C4_droits_mutation_monotones :
    ∀ b ∈ BAREMES, ∀ p1 p2 : ℚ, 0 ≤ p1 → p1 ≤ p2 →
      calculer_droits_mutation p1 b.1 ≤ calculer_droits_mutation p2 b.1 ∧
      calculer_droits_mutation 0 b.1 = 0 := by
  intro b hb p1 p2 _h0 h12
  simp only [BAREMES, List.mem_cons, List.not_mem_nil, or_false] at hb
  rcases hb with rfl | rfl | rfl
  · exact ⟨droits_mono_of _ _ lookup_bareme_QC chaine_QC tauxNonneg_QC h12,
      droits_zero_of _ _ lookup_bareme_QC⟩
  · exact ⟨droits_mono_of _ _ lookup_bareme_MTL chaine_MTL tauxNonneg_MTL h12,
      droits_zero_of _ _ lookup_bareme_MTL⟩
  · exact ⟨droits_mono_of _ _ lookup_bareme_QCV chaine_QCV tauxNonneg_QCV h12,
      droits_zero_of _ _ lookup_bareme_QCV⟩

/-- Witness for C4 on the Montréal schedule at prices 100000 ≤ 200000. -/
theorem C4_droits_mutation_monotones_temoin :
    calculer_droits_mutation 100000 "Montréal"
      ≤ calculer_droits_mutation 200000 "Montréal" ∧
    calculer_droits_mutation 0 "Montréal" = 0 :=
  C4_droits_mutation_monotones ("Montréal", TRANCHES_MUTATION_MTL_2026)
    (by simp [BAREMES]) 100000 200000 (by norm_num) (by norm_num)

/-- C5 counterexample: at price 300000 the Montréal tax is not strictly
larger than the general Québec tax (both are $2,685.50). -/
theorem C5_contre_exemple :
    ¬ (calculer_droits_mutation 300000 "Québec (général)"
        < calculer_droits_mutation 300000 "Montréal") := by
  rw [droits300000_QC, droits300000_MTL]
  exact lt_irrefl _

/-- C5 amended: the Montréal and general Québec schedules agree at price
300000 (the two schedules share their brackets up to 500000); the strict
inequality Montréal > general holds for the accumulated (pre-rounding) tax
exactly once the price exceeds 500000, the first bound at which the two
schedules diverge, and for the rounded tax at e.g. price 600000. -/
theorem C5_droits_mtl_vs_qc_amende :
    calculer_droits_mutation 300000 "Montréal"
      = calculer_droits_mutation 300000 "Québec (général)" ∧
    (∀ p : ℚ, 500000 < p →
      droitsBoucle p TRANCHES_MUTATION_QC_2026 (some 0) 0
        < droitsBoucle p TRANCHES_MUTATION_MTL_2026 (some 0) 0) ∧
    calculer_droits_mutation 600000 "Québec (général)"
      < calculer_droits_mutation 600000 "Montréal" := by
  refine ⟨by rw [droits300000_QC, droits300000_MTL], ?_, ?_⟩
  · intro p hp
    rcases le_or_lt p 1000000 with h1 | h1
    · rw [droitsQC_gt315000 (by linarith), droitsMTL_seg1 hp h1]
      nlinarith
    · rcases le_or_lt p 2000000 with h2 | h2
      · rw [droitsQC_gt315000 (by linarith), droitsMTL_seg2 h1 h2]
        nlinarith
      · rcases le_or_lt p 3113000 with h3 | h3
        · rw [droitsQC_gt315000 (by linarith), droitsMTL_seg3 h2 h3]
          nlinarith
        · rw [droitsQC_gt315000 (by linarith), droitsMTL_seg4 h3]
          nlinarith
  · rw [droits600000_QC, droits600000_MTL]
    norm_num

/-- Witness for C5 amended at price 600000. -/
theorem C5_droits_mtl_vs_qc_amende_temoin :
    droitsBoucle 600000 TRANCHES_MUTATION_QC_2026 (some 0) 0
      < droitsBoucle 600000 TRANCHES_MUTATION_MTL_2026 (some 0) 0 :=
  C5_droits_mtl_vs_qc_amende.2.1 600000 (by norm_num)

/-- Witness for C3 amended at price 100, down payment 150%. -/
theorem C3_amende_temoin :
    (analyse_annee_1 100 0 5 0 0 0 0 0 0 150 5 25 none).service_dette = 0 ∧
    (analyse_annee_1 100 0 5 0 0 0 0 0 0 150 5 25 none).hypotheque
      = round2 (100 * (1 - 150 / 100)) ∧
    (analyse_annee_1 100 0 5 0 0 0 0 0 0 150 5 25 none).hypotheque ≤ 0 :=
  C3_amende 100 0 5 0 0 0 0 0 0 150 5 25 none (by norm_num) (by norm_num)

/-! Helper lemmas for the projection equity invariant. -/

theorem isCent_solde_anneesBoucle (tm pm : ℚ) :
    ∀ (k annee : ℕ) (solde : ℚ), ∀ r ∈ anneesBoucle tm pm annee k solde,
      IsCent r.solde_restant := by
  intro k
  induction k with
  | zero => intro annee solde r hr; simp [anneesBoucle] at hr
  | succ n ih =>
    intro annee solde r hr
    simp only [anneesBoucle, List.mem_cons] at hr
    rcases hr with rfl | hr
    · exact isCent_round2 _
    · exact ih _ _ r hr

theorem projBoucle_equite (ti cr infl app : ℚ) :
    ∀ (amor : List AmorRow) (i : ℕ) (rb dep val cum : ℚ),
      (∀ r ∈ amor, IsCent r.solde_restant) →
      ∀ row ∈ (projBoucle ti cr infl app amor i rb dep val cum).1,
        row.equite = row.valeur_immeuble - row.solde_hypotheque := by
  intro amor
  induction amor with
  | nil =>
    intro i rb dep val cum _ row hrow
    simp [projBoucle] at hrow
  | cons a rest ih =>
    intro i rb dep val cum hc row hrow
    simp only [projBoucle, List.mem_cons] at hrow
    rcases hrow with rfl | hrow
    · have hs : IsCent a.solde_restant := hc a (List.mem_cons_self a rest)
      dsimp only
      rw [round2_sub_of_isCent _ hs, round2_of_isCent hs]
    · exact ih _ _ _ _ _ (fun r hr => hc r (List.mem_cons_of_mem a hr)) row hrow

/-- C6: every row of the 10-year projection satisfies
equity = property value − mortgage balance, exactly as returned (the
mortgage balance drawn from the amortization table is a whole number of
cents, so the cent rounding distributes over the subtraction). -/
theorem C6_equite_vaut_valeur_moins_solde (prix revenus_bruts_annuels
    depenses_exploitation_an1 noi_an1 taux_inoccupation mise_de_fonds_pct
    taux_interet : ℚ) (amortissement : ℕ)
    (croissance_loyers inflation_depenses appreciation_immeuble
      mise_de_fonds_totale : ℚ) (annees : ℕ) :
    ∀ row ∈ (projection_10_ans prix revenus_bruts_annuels
        depenses_exploitation_an1 noi_an1 taux_inoccupation mise_de_fonds_pct
        taux_interet amortissement croissance_loyers inflation_depenses
        appreciation_immeuble mise_de_fonds_totale annees).projection,
      row.equite = row.valeur_immeuble - row.solde_hypotheque := by
  intro row hrow
  simp only [projection_10_ans] at hrow
  refine projBoucle_equite _ _ _ _ _ 0 _ _ _ _ ?_ row hrow
  intro r hr
  simp only [tableau_amortissement] at hr
  exact isCent_solde_anneesBoucle _ _ _ _ _ r hr

/-- Witness for C6: the single row of an all-zero one-year projection. -/
theorem C6_equite_temoin :
    (⟨1, 0, 0, 0, 0, 0, 0, 0, 0, 0, 0⟩ : ProjRow).equite
      = (⟨1, 0, 0, 0, 0, 0, 0, 0, 0, 0, 0⟩ : ProjRow).valeur_immeuble
        - (⟨1, 0, 0, 0, 0, 0, 0, 0, 0, 0, 0⟩ : ProjRow).solde_hypotheque :=
  C6_equite_vaut_valeur_moins_solde 0 0 0 0 0 0 0 25 0 0 0 0 1
    ⟨1, 0, 0, 0, 0, 0, 0, 0, 0, 0, 0⟩
    (by norm_num [projection_10_ans, tableau_amortissement,
      calculer_paiement_hypothecaire, anneesBoucle, moisBoucle, projBoucle,
      round2_zero])

theorem round1_zero : round1 0 = 0 := by
  simp [round1]

theorem round3_zero : round3 0 = 0 := by
  simp [round3]

/-- C7: the degenerate-input sentinels: the payment function returns 0 on
non-positive principal or rate; in the indicator calculator the coverage
ratio is 0 when debt service is 0, cap rate and LTV are 0 when price is 0,
cash-on-cash is 0 when total investment is 0, and the payback period is the
explicit infinite sentinel (`none`) when cash flow ≤ 0. -/
theorem C7_sentinelles_degenerees :
    (∀ (montant taux_annuel : ℚ) (a : ℕ), montant ≤ 0 ∨ taux_annuel ≤ 0 →
      calculer_paiement_hypothecaire montant taux_annuel a = 0) ∧
    (∀ prix noi cashflow mdf sd rn ti hyp : ℚ, sd = 0 →
      (calculer_indicateurs prix noi cashflow mdf sd rn ti hyp).csd = 0) ∧
    (∀ prix noi cashflow mdf sd rn ti hyp : ℚ, prix = 0 →
      (calculer_indicateurs prix noi cashflow mdf sd rn ti hyp).cap_rate = 0 ∧
      (calculer_indicateurs prix noi cashflow mdf sd rn ti hyp).ltv = 0) ∧
    (∀ prix noi cashflow mdf sd rn ti hyp : ℚ, mdf = 0 →
      (calculer_indicateurs prix noi cashflow mdf sd rn ti hyp).cash_on_cash = 0) ∧
    (∀ prix noi cashflow mdf sd rn ti hyp : ℚ, cashflow ≤ 0 →
      (calculer_indicateurs prix noi cashflow mdf sd rn ti hyp).delai_recuperation
        = none) := by
  refine ⟨?_, ?_, ?_, ?_, ?_⟩
  · intro montant taux_annuel a h
    rw [calculer_paiement_hypothecaire, if_pos h]
  · intro prix noi cashflow mdf sd rn ti hyp h
    subst h
    simp [calculer_indicateurs, round3_zero]
  · intro prix noi cashflow mdf sd rn ti hyp h
    subst h
    simp [calculer_indicateurs, round2_zero, round1_zero]
  · intro prix noi cashflow mdf sd rn ti hyp h
    subst h
    simp [calculer_indicateurs, round2_zero]
  · intro prix noi cashflow mdf sd rn ti hyp h
    simp [calculer_indicateurs, not_lt.mpr h]

/-- Witness for C7 at concrete degenerate inputs. -/
theorem C7_sentinelles_degenerees_temoin :
    calculer_paiement_hypothecaire (-1) 5 25 = 0 ∧
    (calculer_indicateurs 1 1 1 1 0 1 5 1).csd = 0 ∧
    ((calculer_indicateurs 0 1 1 1 1 1 5 1).cap_rate = 0 ∧
      (calculer_indicateurs 0 1 1 1 1 1 5 1).ltv = 0) ∧
    (calculer_indicateurs 1 1 1 0 1 1 5 1).cash_on_cash = 0 ∧
    (calculer_indicateurs 1 1 (-1) 1 1 1 5 1).delai_recuperation = none :=
  ⟨C7_sentinelles_degenerees.1 (-1) 5 25 (Or.inl (by norm_num)),
   C7_sentinelles_degenerees.2.1 1 1 1 1 0 1 5 1 rfl,
   C7_sentinelles_degenerees.2.2.1 0 1 1 1 1 1 5 1 rfl,
   C7_sentinelles_degenerees.2.2.2.1 1 1 1 0 1 1 5 1 rfl,
   C7_sentinelles_degenerees.2.2.2.2 1 1 (-1) 1 1 1 5 1 (by norm_num)⟩

/-! Helper lemmas for the interest-rate sensitivity table. -/

theorem sensibiliteBoucle_eq_filtre (noi ti hyp : ℚ) :
    ∀ l : List ℚ, sensibiliteBoucle noi ti hyp l
      = (l.filter (fun d => decide (0 < ti + d))).map
          (fun d => (ti + d,
            round2 (noi - calculer_paiement_hypothecaire hyp (ti + d) 25 * 12))) := by
  intro l
  induction l with
  | nil => simp [sensibiliteBoucle]
  | cons d rest ih =>
    by_cases h : 0 < ti + d
    · simp [sensibiliteBoucle, List.filter_cons, h, ih]
    · simp [sensibiliteBoucle, List.filter_cons, h, ih]

theorem sensibiliteBoucle_cle_pos (noi ti hyp : ℚ) :
    ∀ l : List ℚ, ∀ e ∈ sensibiliteBoucle noi ti hyp l, 0 < e.1 := by
  intro l
  induction l with
  | nil => intro e he; simp [sensibiliteBoucle] at he
  | cons d rest ih =>
    intro e he
    by_cases h : 0 < ti + d
    · rw [sensibiliteBoucle, if_pos h] at he
      rcases List.mem_cons.mp he with rfl | he
      · exact h
      · exact ih e he
    · rw [sensibiliteBoucle, if_neg h] at he
      exact ih e he

theorem sensibiliteBoucle_valeur (noi ti hyp : ℚ) :
    ∀ l : List ℚ, ∀ e ∈ sensibiliteBoucle noi ti hyp l,
      e.2 = round2 (noi - calculer_paiement_hypothecaire hyp e.1 25 * 12) := by
  intro l
  induction l with
  | nil => intro e he; simp [sensibiliteBoucle] at he
  | cons d rest ih =>
    intro e he
    by_cases h : 0 < ti + d
    · rw [sensibiliteBoucle, if_pos h] at he
      rcases List.mem_cons.mp he with rfl | he
      · rfl
      · exact ih e he
    · rw [sensibiliteBoucle, if_neg h] at he
      exact ih e he

theorem round2_100 : round2 (100 : ℚ) = 100 := by
  rw [round2_eq _ 10000 (by norm_num) (by norm_num)]
  norm_num

/-- The sensitivity table at NOI 100, base rate 5%, loan principal 0. -/
theorem sensibilite_exemple :
    (calculer_indicateurs 1 100 1 1 1 1 5 0).sensibilite
      = [(4, 100), (9/2, 100), (11/2, 100), (6, 100)] := by
  norm_num [calculer_indicateurs, sensibiliteBoucle,
    calculer_paiement_hypothecaire, round2_100]

/-- C8: the interest-rate sensitivity table contains exactly the entries
for offsets in {−1, −0.5, 0.5, 1} whose resulting rate is positive, each
mapping the rate to NOI minus the recomputed annual debt service; every
entry key is a positive rate (no entry for an offset driving the rate
≤ 0). -/
theorem C8_sensibilite_offsets (prix noi cashflow mdf sd rn ti hyp : ℚ) :
    (calculer_indicateurs prix noi cashflow mdf sd rn ti hyp).sensibilite
      = (([-1, -0.5, 0.5, 1] : List ℚ).filter (fun d => decide (0 < ti + d))).map
          (fun d => (ti + d,
            round2 (noi - calculer_paiement_hypothecaire hyp (ti + d) 25 * 12))) ∧
    ∀ e ∈ (calculer_indicateurs prix noi cashflow mdf sd rn ti hyp).sensibilite,
      0 < e.1 := by
  constructor
  · simp only [calculer_indicateurs]
    exact sensibiliteBoucle_eq_filtre noi ti hyp _
  · simp only [calculer_indicateurs]
    exact sensibiliteBoucle_cle_pos noi ti hyp _

/-- Witness for C8: the first entry of a concrete sensitivity table has a
positive rate key. -/
theorem C8_sensibilite_offsets_temoin : 0 < (((4 : ℚ), (100 : ℚ))).1 :=
  (C8_sensibilite_offsets 1 100 1 1 1 1 5 0).2 (4, 100)
    (by rw [sensibilite_exemple]; exact List.mem_cons_self _ _)

/-- C10: every interest-rate sensitivity entry equals NOI − 12 × the payment
recomputed with the default 25-year amortization, whatever amortization the
surrounding analysis used (the sensitivity loop passes no amortization
argument). -/
theorem C10_sensibilite_amortissement_25 (prix noi cashflow mdf sd rn ti hyp : ℚ) :
    ∀ e ∈ (calculer_indicateurs prix noi cashflow mdf sd rn ti hyp).sensibilite,
      e.2 = round2 (noi - calculer_paiement_hypothecaire hyp e.1 25 * 12) := by
  simp only [calculer_indicateurs]
  exact sensibiliteBoucle_valeur noi ti hyp _

/-- Witness for C10 at the first entry of a concrete sensitivity table. -/
theorem C10_sensibilite_amortissement_25_temoin :
    (((4 : ℚ), (100 : ℚ))).2
      = round2 (100 - calculer_paiement_hypothecaire 0 (((4 : ℚ), (100 : ℚ))).1 25 * 12) :=
  C10_sensibilite_amortissement_25 1 100 1 1 1 1 5 0 (4, 100)
    (by rw [sensibilite_exemple]; exact List.mem_cons_self _ _)

/-! Helper lemmas for the location score. -/

theorem scoreBoucle_ext {r1 r2 : List (String × String)}
    (h : ∀ k : String, r1.lookup k = r2.lookup k) :
    ∀ (cs : List Critere) (ds : List DetailScore) (tp tw : ℚ),
      scoreBoucle r1 cs ds tp tw = scoreBoucle r2 cs ds tp tw := by
  intro cs
  induction cs with
  | nil => intro ds tp tw; rfl
  | cons c rest ih =>
    intro ds tp tw
    cases hcase : r2.lookup c.id with
    | none => simp only [scoreBoucle, h c.id, hcase]; exact ih ds tp tw
    | some o => simp only [scoreBoucle, h c.id, hcase]; exact ih _ _ _

theorem scoreBoucle_vide :
    ∀ (cs : List Critere) (ds : List DetailScore) (tp tw : ℚ),
      scoreBoucle [] cs ds tp tw = (ds, tp, tw) := by
  intro cs
  induction cs with
  | nil => intro ds tp tw; rfl
  | cons c rest ih =>
    intro ds tp tw
    simp only [scoreBoucle, List.lookup]
    exact ih ds tp tw

/-- C9: the location score result depends only on the answer mapping viewed
as a lookup function (so it is invariant under reordering of the supplied
key-value pairs), and with zero criteria answered the global score is 0
(the division is guarded). -/
theorem C9_score_localisation :
    (∀ r1 r2 : List (String × String),
      (∀ k : String, r1.lookup k = r2.lookup k) →
      calculer_score_localisation r1 = calculer_score_localisation r2) ∧
    (calculer_score_localisation []).score_global = 0 := by
  constructor
  · intro r1 r2 h
    simp only [calculer_score_localisation, scoreBoucle_ext h, h]
  · simp only [calculer_score_localisation, scoreBoucle_vide]
    norm_num

/-- Witness for C9: two orderings of the same two answers give identical
results. -/
theorem C9_score_localisation_temoin :
    calculer_score_localisation [("transport", "Moyen"), ("ecoles", "Bon")]
      = calculer_score_localisation [("ecoles", "Bon"), ("transport", "Moyen")] :=
  C9_score_localisation.1 _ _ (by
    intro k
    cases hA : (k == "transport") <;> cases hB : (k == "ecoles") <;>
      simp [List.lookup, hA, hB]
    exact absurd ((beq_iff_eq.mp hA).symm.trans (beq_iff_eq.mp hB)) (by decide))

end AppFinance
